import Mathlib

/-!
A shallow embedding of the PharmaVault EDMS backend (`src/backend/server.py`)
together with proofs about its authentication, document-workflow, signature
and search operations.

Modelling conventions:
* MongoDB collections become Lean lists; `find_one` is `List.find?` (first
  match) and `update_one` updates the first matching element (`updateFirst`).
* Timestamps (`datetime.now()`) are passed in as a `now : Nat` parameter;
  freshly generated uuids are passed in as explicit `newId` arguments.
* External cryptographic primitives (bcrypt's `checkpw`, sha256 hex digest)
  are parameters of the operations that use them.
* Each endpoint returns the (possibly updated) database state paired with an
  `Except Err` result; an `Err` carries the HTTP status code and detail
  message raised by the Python code.  An unhandled Python exception (e.g. an
  `IndexError` from negative list indexing) is surfaced by the framework as
  HTTP 500 and modelled the same way.
* The audit-log collection is not modelled: no claim below concerns it, and
  `log_audit` never alters users or documents.
-/

/-- A workflow step as stored inside `Document.approval_workflow`
(see the `WorkflowStep` pydantic model and the dicts seeded by
`upload_document` in `src/backend/server.py`). -/
structure WorkflowStep where
  step_name : String
  assignee_role : String
  assignee_id : Option String := none
  status : String := "Pending"
  completed_at : Option Nat := none
  comments : Option String := none
deriving Repr, DecidableEq

/-- An electronic signature record (`ElectronicSignature` in the source). -/
structure ElectronicSignature where
  signer_id : String
  signer_name : String
  signer_role : String
  signature_hash : String
  signed_at : Nat
  reason : String
  location : String := "Digital"
deriving Repr, DecidableEq

/-- A document record (`Document` in the source).  File-storage fields that
no claim touches (mime type, on-disk path, metadata map) are omitted. -/
structure Document where
  id : String
  title : String
  description : Option String := none
  document_type : String
  category : String
  version : String := "1.0"
  status : String := "Draft"
  file_name : String
  file_size : Nat
  uploaded_by : String
  created_at : Nat
  modified_at : Nat
  tags : List String := []
  approval_workflow : List WorkflowStep := []
  signatures : List ElectronicSignature := []
deriving Repr, DecidableEq

/-- A user record as stored by `register` (the `User` model plus the
`password` field holding the bcrypt hash). -/
structure UserRec where
  id : String
  email : String
  password : String
  full_name : String
  role : String
  department : String
  is_active : Bool := true
  created_at : Nat
deriving Repr, DecidableEq

/-- An HTTP error as raised by `HTTPException(status_code=..., detail=...)`. -/
structure Err where
  status : Nat
  detail : String
deriving Repr, DecidableEq

/-- The database state: the `users` and `documents` Mongo collections. -/
structure DB where
  users : List UserRec := []
  documents : List Document := []
deriving Repr, DecidableEq

/-- Mongo `update_one`: apply `f` to the first element satisfying `p`,
leave everything else unchanged. -/
def updateFirst {α : Type} (p : α → Bool) (f : α → α) : List α → List α
  | [] => []
  | x :: xs => if p x then f x :: xs else x :: updateFirst p f xs

/-- Python list read `l[i]`: a negative index counts from the end; an index
that is still out of range after that adjustment raises `IndexError`,
modelled as `none`. -/
def pyGet? {α : Type} (l : List α) (i : Int) : Option α :=
  let j : Int := if i < 0 then i + l.length else i
  if j < 0 then none else l[j.toNat]?

/-- Python list element replacement at index `i` (negative indices count
from the end), used to model the in-place `workflow[step_index].update`. -/
def pySet {α : Type} (l : List α) (i : Int) (a : α) : List α :=
  let j : Int := if i < 0 then i + l.length else i
  if j < 0 then l else l.set j.toNat a

/-- The fields written into a workflow step by a successful approval
(`workflow[step_index].update({...})` in `approve_document_step`). -/
def completeStep (step : WorkflowStep) (u : UserRec) (comments : String) (now : Nat) :
    WorkflowStep :=
  { step with
      status := "Completed"
      assignee_id := some u.id
      completed_at := some now
      comments := some comments }

/-- The static type-to-workflow table inlined in `upload_document`
(lines 307-317 of `src/backend/server.py`). -/
def seedWorkflow (document_type : String) : List WorkflowStep :=
  if document_type = "CTD" ∨ document_type = "eCTD" ∨ document_type = "Regulatory" then
    [{ step_name := "Quality Review", assignee_role := "QualityManager", status := "Pending" },
     { step_name := "Regulatory Review", assignee_role := "RegulatoryAffairs", status := "Pending" },
     { step_name := "Final Approval", assignee_role := "Admin", status := "Pending" }]
  else if document_type = "SOP" ∨ document_type = "Protocol" then
    [{ step_name := "Technical Review", assignee_role := "QualityManager", status := "Pending" },
     { step_name := "Management Approval", assignee_role := "Admin", status := "Pending" }]
  else
    []

/-- `POST /api/auth/register` (`register` in the source).  `hashFn` models
`bcrypt.hashpw`; `newId` the generated uuid. -/
def register (db : DB) (email password full_name role department : String)
    (hashFn : String → String) (newId : String) (now : Nat) :
    DB × Except Err String :=
  match db.users.find? (fun u => u.email == email) with
  | some _ => (db, .error ⟨400, "Email already registered"⟩)
  | none =>
    let u : UserRec :=
      { id := newId
        email := email
        password := hashFn password
        full_name := full_name
        role := role
        department := department
        is_active := true
        created_at := now }
    ({ db with users := db.users ++ [u] }, .ok newId)

/-- The claims embedded in a session token by `create_jwt_token`. -/
structure JwtClaims where
  user_id : String
  email : String
  role : String
  exp : Nat
deriving Repr, DecidableEq

/-- An incoming bearer token, abstracting the wire format: whether it parses
as a JWT at all, whether its signature verifies under the server key, and
the claims it carries. -/
structure JwtToken where
  claims : JwtClaims
  wellFormed : Bool
  signatureValid : Bool
deriving Repr, DecidableEq

/-- Possible outcomes of the external `jwt.decode` call. -/
inductive JwtOutcome where
  | valid (claims : JwtClaims)
  | expiredSignature
  | invalidToken
deriving Repr, DecidableEq

/-- Model of the external PyJWT `jwt.decode` primitive: a malformed token or
a bad signature raises an invalid-token error; a structurally valid token
whose `exp` claim is in the past raises `ExpiredSignatureError`; otherwise
the embedded claims are returned. -/
def jwtDecode (t : JwtToken) (now : Nat) : JwtOutcome :=
  if t.wellFormed = false ∨ t.signatureValid = false then .invalidToken
  else if t.claims.exp < now then .expiredSignature
  else .valid t.claims

/-- `verify_jwt_token` (lines 169-176 of the source).  An expired token is
caught by `except jwt.ExpiredSignatureError` and returns 401 "Token
expired".  The second clause, `except jwt.JWTError`, names an attribute
that PyJWT does not define (its hierarchy is `PyJWTError` →
`InvalidTokenError` → `DecodeError`/`InvalidSignatureError`/...; `JWTError`
belongs to python-jose), so when `jwt.decode` raises an invalid-token
error, evaluating the handler class raises `AttributeError`, which escapes
unhandled and surfaces as HTTP 500: the handler's own
`HTTPException(401, "Invalid token")` body is unreachable. -/
def verify_jwt_token (t : JwtToken) (now : Nat) : Except Err JwtClaims :=
  match jwtDecode t now with
  | .valid payload => .ok payload
  | .expiredSignature => .error ⟨401, "Token expired"⟩
  | .invalidToken => .error ⟨500, "AttributeError"⟩

/-- `POST /api/documents/upload` (`upload_document` in the source), after
the file bytes have been stored; returns the new document id. -/
def upload_document (db : DB) (current_user : UserRec) (file_size : Nat)
    (file_name title description document_type category tags : String)
    (newId : String) (now : Nat) : DB × Except Err String :=
  if 50 * 1024 * 1024 < file_size then
    (db, .error ⟨400, "File too large"⟩)
  else
    let document : Document :=
      { id := newId
        title := title
        description := some description
        document_type := document_type
        category := category
        version := "1.0"
        status := "Draft"
        file_name := file_name
        file_size := file_size
        uploaded_by := current_user.id
        created_at := now
        modified_at := now
        tags := if tags = "" then [] else tags.splitOn ","
        approval_workflow := seedWorkflow document_type
        signatures := [] }
    ({ db with documents := db.documents ++ [document] }, .ok newId)

/-- Line 408 of the source: `all(step["status"] == "Completed" for step in
workflow)` over the already-mutated workflow. -/
def allCompleted (wf : List WorkflowStep) : Bool :=
  wf.all (fun s => s.status == "Completed")

/-- Line 409 of the source: the recomputed document status. -/
def newStatus (wf : List WorkflowStep) : String :=
  if allCompleted wf then "Approved" else "UnderReview"

/-- The write-back of a successful approval: persist the mutated workflow
and the recomputed status, and build the response message. -/
def approveWrite (db : DB) (document_id : String) (wf : List WorkflowStep) (now : Nat) :
    DB × Except Err (String × String) :=
  ({ db with
      documents := updateFirst (fun d => d.id == document_id)
        (fun d => { d with
            approval_workflow := wf
            status := newStatus wf
            modified_at := now }) db.documents },
   .ok (if allCompleted wf then "Document approved" else "Document step approved",
        newStatus wf))

/-- The body of `approve_document_step` once the document has been fetched:
bounds check, Python indexing, role check, then the mutation. -/
def approveOnDoc (db : DB) (document_id : String) (document : Document)
    (step_index : Int) (comments : String) (current_user : UserRec) (now : Nat) :
    DB × Except Err (String × String) :=
  if (document.approval_workflow.length : Int) ≤ step_index then
    (db, .error ⟨400, "Invalid workflow step"⟩)
  else
    match pyGet? document.approval_workflow step_index with
    | none => (db, .error ⟨500, "IndexError"⟩)
    | some step =>
      if step.assignee_role ≠ current_user.role ∧ current_user.role ≠ "Admin" then
        (db, .error ⟨403, "Not authorized for this approval step"⟩)
      else
        approveWrite db document_id
          (pySet document.approval_workflow step_index
            (completeStep step current_user comments now)) now

/-- `POST /api/documents/{id}/approve` (`approve_document_step`): fetch the
document, bounds-check the index, check the actor's role, complete the step
and recompute the document status. -/
def approve_document_step (db : DB) (document_id : String) (step_index : Int)
    (comments : String) (current_user : UserRec) (now : Nat) :
    DB × Except Err (String × String) :=
  match db.documents.find? (fun d => d.id == document_id) with
  | none => (db, .error ⟨404, "Document not found"⟩)
  | some document =>
    approveOnDoc db document_id document step_index comments current_user now

/-- `POST /api/documents/{id}/reject` (`reject_document`): unconditionally
set the status to Rejected; no role check, workflow untouched. -/
def reject_document (db : DB) (document_id reason : String)
    (current_user : UserRec) (now : Nat) : DB × Except Err String :=
  match db.documents.find? (fun d => d.id == document_id) with
  | none => (db, .error ⟨404, "Document not found"⟩)
  | some _ =>
    ({ db with
        documents := updateFirst (fun d => d.id == document_id)
          (fun d => { d with status := "Rejected", modified_at := now }) db.documents },
     .ok "Document rejected")

/-- `POST /api/documents/{id}/sign` (`sign_document`).  `checkpw` models
`bcrypt.checkpw`; `hashHex` models the sha256 hex digest of the signature
data string. -/
def sign_document (db : DB) (document_id reason password : String)
    (current_user : UserRec) (checkpw : String → String → Bool)
    (hashHex : String → String) (now : Nat) : DB × Except Err String :=
  match db.users.find? (fun u => u.id == current_user.id) with
  | none => (db, .error ⟨500, "TypeError"⟩)
  | some user =>
    if checkpw password user.password = false then
      (db, .error ⟨401, "Invalid password for signature"⟩)
    else
      match db.documents.find? (fun d => d.id == document_id) with
      | none => (db, .error ⟨404, "Document not found"⟩)
      | some document =>
        let signature_hash :=
          hashHex (current_user.id ++ document_id ++ reason ++ toString now)
        let signature : ElectronicSignature :=
          { signer_id := current_user.id
            signer_name := current_user.full_name
            signer_role := current_user.role
            signature_hash := signature_hash
            signed_at := now
            reason := reason
            location := "Digital" }
        ({ db with
            documents := updateFirst (fun d => d.id == document_id)
              (fun d => { d with
                  signatures := d.signatures ++ [signature]
                  modified_at := now }) db.documents },
         .ok signature_hash)

/-- One token of a regular-expression pattern: a literal character or the
metacharacter `.` (any character other than a newline). -/
inductive RTok where
  | lit (c : Char)
  | dot
deriving Repr, DecidableEq

/-- Whether one pattern token matches one subject character, under the `i`
(case-insensitive) option that the search endpoint always passes. -/
def rtokMatches : RTok → Char → Bool
  | .lit a, c => a.toLower == c.toLower
  | .dot, c => !(c == Char.ofNat 10)

/-- Compile a query string into pattern tokens: `.` becomes the wildcard,
every other character a literal.  This interprets the fragment of regular
expressions with no metacharacter other than `.`; theorems that rely on
this model restrict the query to that fragment. -/
def parseP : List Char → List RTok
  | [] => []
  | c :: cs => (if c = '.' then RTok.dot else RTok.lit c) :: parseP cs

/-- Whether the pattern matches a prefix of the subject. -/
def matchHere : List RTok → List Char → Bool
  | [], _ => true
  | _ :: _, [] => false
  | t :: ts, c :: cs => rtokMatches t c && matchHere ts cs

/-- Unanchored regular-expression search: the pattern matches starting at
some position of the subject (Mongo `$regex` semantics). -/
def regexFindIn (pat : List RTok) : List Char → Bool
  | [] => matchHere pat []
  | c :: cs => matchHere pat (c :: cs) || regexFindIn pat cs

/-- Model of the Mongo filter `{field: {"$regex": q, "$options": "i"}}` on a
string field, for queries in the supported pattern fragment. -/
def mongoRegexFind (q s : String) : Bool :=
  regexFindIn (parseP q.data) s.data

/-- Lower-cased character list of a string. -/
def lowerList (s : String) : List Char :=
  s.data.map Char.toLower

/-- Whether the first list is a leading block of the second. -/
def startsWithChars : List Char → List Char → Bool
  | [], _ => true
  | _ :: _, [] => false
  | a :: as, b :: bs => (a == b) && startsWithChars as bs

/-- Whether `needle` occurs as a contiguous block somewhere in the second
list. -/
def containsChars (needle : List Char) : List Char → Bool
  | [] => startsWithChars needle []
  | c :: cs => startsWithChars needle (c :: cs) || containsChars needle cs

/-- Case-insensitive substring containment, the relation the specification
uses to describe search. -/
def containsCI (needle hay : String) : Bool :=
  containsChars (lowerList needle) (lowerList hay)

/-- The regular-expression metacharacters of the search engine other than
`.` (which `parseP` interprets).  Queries avoiding these are exactly the
ones the `parseP` fragment models faithfully. -/
def regexMetachars : List Char :=
  ['\\', '^', '$', '*', '+', '?', '(', ')', '[', ']', Char.ofNat 123, Char.ofNat 125, '|']

/-- A Mongo regex filter applied to an optional string field: a
missing/null field never matches. -/
def optFieldMatch (q : String) : Option String → Bool
  | some s => mongoRegexFind q s
  | none => false

/-- The `$or` filter built by `search_documents`: the query matches the
title, the description, or one of the tags (a Mongo regex on an array field
matches when some element matches), combined with the optional exact
`document_type` filter. -/
def docMatches (q : String) (docType : Option String) (d : Document) : Bool :=
  (mongoRegexFind q d.title ||
    optFieldMatch q d.description ||
    d.tags.any (fun t => mongoRegexFind q t)) &&
  (match docType with
   | some dt => d.document_type == dt
   | none => true)

/-- `GET /api/search` (`search_documents` in the source): filter the
document collection by the `$or` regex query and return at most 20 results
(`.limit(20)`). -/
def search_documents (db : DB) (q : String) (docType : Option String) :
    List Document :=
  (db.documents.filter (docMatches q docType)).take 20

/-- A QualityManager account used as a concrete test fixture. -/
def qmUser : UserRec :=
  { id := "u1"
    email := "qm@example.com"
    password := "hash1"
    full_name := "Quality Manager"
    role := "QualityManager"
    department := "QA"
    is_active := true
    created_at := 0 }

/-- An Admin account used as a concrete test fixture. -/
def adminUser : UserRec :=
  { id := "u2"
    email := "admin@example.com"
    password := "hash2"
    full_name := "Site Admin"
    role := "Admin"
    department := "Ops"
    is_active := true
    created_at := 0 }

/-- A freshly uploaded SOP document (two-step workflow), used as a fixture. -/
def sopDoc : Document :=
  { id := "d1"
    title := "Test SOP"
    description := some "A test procedure"
    document_type := "SOP"
    category := "General"
    version := "1.0"
    status := "Draft"
    file_name := "f.txt"
    file_size := 10
    uploaded_by := "u1"
    created_at := 0
    modified_at := 0
    tags := ["test"]
    approval_workflow := seedWorkflow "SOP"
    signatures := [] }

/-- A database holding the two fixture users and the fixture document. -/
def baseDB : DB :=
  { users := [qmUser, adminUser], documents := [sopDoc] }

/-- A document none of whose text fields contain a full stop, used to
separate regex matching from substring matching. -/
def dotDoc : Document :=
  { id := "d2"
    title := "xyz"
    description := some ""
    document_type := "SOP"
    category := "General"
    version := "1.0"
    status := "Draft"
    file_name := "g.txt"
    file_size := 1
    uploaded_by := "u1"
    created_at := 0
    modified_at := 0
    tags := []
    approval_workflow := []
    signatures := [] }

/-- A database holding only `dotDoc`. -/
def dotDB : DB := { users := [], documents := [dotDoc] }

/-- `update_one` followed by `find_one` with the same filter returns the
updated record, provided the update preserves the filter. -/
theorem find?_updateFirst {α : Type} (p : α → Bool) (f : α → α) (l : List α) (a : α)
    (hp : ∀ x, p x = true → p (f x) = true)
    (hfind : l.find? p = some a) :
    (updateFirst p f l).find? p = some (f a) := by
  induction l with
  | nil => simp [List.find?] at hfind
  | cons x xs ih =>
    by_cases hx : p x = true
    · rw [List.find?_cons_of_pos _ hx] at hfind
      injection hfind with h
      subst h
      simp only [updateFirst, if_pos hx]
      exact List.find?_cons_of_pos _ (hp _ hx)
    · have hx' : p x = false := by
        revert hx; cases p x <;> simp
      rw [List.find?_cons_of_neg _ (by simp [hx'])] at hfind
      simp only [updateFirst, hx', if_neg (by simp : ¬ (false = true))]
      rw [List.find?_cons_of_neg _ (by simp [hx'])]
      exact ih hfind

/-- A Python index that reads successfully is strictly below the length. -/
theorem pyGet?_lt {α : Type} {l : List α} {i : Int} {a : α}
    (h : pyGet? l i = some a) : i < (l.length : Int) := by
  unfold pyGet? at h
  by_cases hi : i < 0
  · omega
  · simp only [if_neg hi] at h
    have := (List.getElem?_eq_some.mp h).1
    omega

/-- Writing through a successfully-resolved negative Python index is the
same as `List.set` at position `i + length`. -/
theorem pySet_neg_eq_set {α : Type} {l : List α} {i : Int} {a : α} (b : α)
    (hi : i < 0) (h : pyGet? l i = some a) :
    pySet l i b = l.set (i + (l.length : Int)).toNat b := by
  unfold pyGet? at h
  unfold pySet
  simp only [if_pos hi] at h ⊢
  by_cases hj : i + (l.length : Int) < 0
  · simp [if_pos hj] at h
  · simp [if_neg hj]

/-- Fetch-equation for `approve_document_step` when the document exists. -/
theorem approve_found (db : DB) (document_id : String) (step_index : Int)
    (comments : String) (u : UserRec) (now : Nat) (doc : Document)
    (hfind : db.documents.find? (fun d => d.id == document_id) = some doc) :
    approve_document_step db document_id step_index comments u now =
      approveOnDoc db document_id doc step_index comments u now := by
  unfold approve_document_step
  rw [hfind]

/-- Reduction of `approveOnDoc` for an in-range index and an authorized
actor: the call performs the mutation and write-back. -/
theorem approveOnDoc_success (db : DB) (document_id : String) (doc : Document)
    (step_index : Int) (comments : String) (u : UserRec) (now : Nat)
    (step : WorkflowStep)
    (hstep : pyGet? doc.approval_workflow step_index = some step)
    (hrole : ¬(step.assignee_role ≠ u.role ∧ u.role ≠ "Admin")) :
    approveOnDoc db document_id doc step_index comments u now =
      approveWrite db document_id
        (pySet doc.approval_workflow step_index
          (completeStep step u comments now)) now := by
  unfold approveOnDoc
  rw [if_neg (by have := pyGet?_lt hstep; omega)]
  simp only [hstep]
  rw [if_neg hrole]

/-- C8: the claim says a malformed token or one with an invalid signature
fails with Unauthorized (401).  In fact `except jwt.JWTError` names an
attribute PyJWT does not define, so on such a token the handler itself
raises `AttributeError` and the request surfaces as HTTP 500, not 401 —
both for a wrongly-signed and for a malformed token.  Only the expired
path returns 401, and only a valid unexpired token yields its claims. -/
theorem C8_invalid_token_500 :
    verify_jwt_token ⟨⟨"u1", "e@x.com", "User", 10⟩, true, false⟩ 5 =
      .error ⟨500, "AttributeError"⟩ ∧
    verify_jwt_token ⟨⟨"u1", "e@x.com", "User", 10⟩, false, true⟩ 5 =
      .error ⟨500, "AttributeError"⟩ ∧
    (500 : Nat) ≠ 401 ∧
    verify_jwt_token ⟨⟨"u1", "e@x.com", "User", 10⟩, true, true⟩ 20 =
      .error ⟨401, "Token expired"⟩ ∧
    verify_jwt_token ⟨⟨"u1", "e@x.com", "User", 10⟩, true, true⟩ 5 =
      .ok ⟨"u1", "e@x.com", "User", 10⟩ :=
  ⟨rfl, rfl, by decide, rfl, rfl⟩

/-- C3: `reject` on an existing document, by any actor and from any current
status, succeeds, sets the status to Rejected, and leaves the workflow step
list (and the signature list) unchanged. -/
theorem C3_reject_unconditional (db : DB) (document_id reason : String)
    (u : UserRec) (now : Nat) (doc : Document)
    (hfind : db.documents.find? (fun d => d.id == document_id) = some doc) :
    (reject_document db document_id reason u now).2 = .ok "Document rejected" ∧
    ∃ doc',
      ((reject_document db document_id reason u now).1).documents.find?
          (fun d => d.id == document_id) = some doc' ∧
      doc'.status = "Rejected" ∧
      doc'.approval_workflow = doc.approval_workflow ∧
      doc'.signatures = doc.signatures := by
  unfold reject_document
  rw [hfind]
  exact ⟨rfl, ⟨_, find?_updateFirst _ _ _ _ (fun x hx => hx) hfind, rfl, rfl, rfl⟩⟩

/-- C3 witness: any user may reject the fixture document while it is in
Draft with a half-finished workflow. -/
theorem C3_witness :
    (reject_document baseDB "d1" "incomplete" qmUser 4).2 = .ok "Document rejected" ∧
    ∃ doc',
      ((reject_document baseDB "d1" "incomplete" qmUser 4).1).documents.find?
          (fun d => d.id == "d1") = some doc' ∧
      doc'.status = "Rejected" ∧
      doc'.approval_workflow = sopDoc.approval_workflow ∧
      doc'.signatures = sopDoc.signatures :=
  C3_reject_unconditional baseDB "d1" "incomplete" qmUser 4 sopDoc rfl

/-- C9 (amended): registering an email that is already present fails with
HTTP 400 "Email already registered" (the code raises BadRequest, not a
distinct 409 Conflict), leaves the store unchanged, and in particular
preserves the number of records holding that email. -/
theorem C9_amended_duplicate_email (db : DB)
    (email password full_name role department : String)
    (hashFn : String → String) (newId : String) (now : Nat) (u : UserRec)
    (hfind : db.users.find? (fun v => v.email == email) = some u) :
    register db email password full_name role department hashFn newId now =
      (db, .error ⟨400, "Email already registered"⟩) ∧
    ((register db email password full_name role department hashFn newId now).1.users.filter
        (fun v => v.email == email)).length =
      (db.users.filter (fun v => v.email == email)).length := by
  unfold register
  rw [hfind]
  exact ⟨rfl, rfl⟩

/-- C9 witness: re-registering the fixture QualityManager's email fails
with 400 and the store keeps its single record for that email. -/
theorem C9_witness :
    register baseDB "qm@example.com" "pw2" "Other" "User" "QA" (fun s => s) "u9" 5 =
      (baseDB, .error ⟨400, "Email already registered"⟩) ∧
    ((register baseDB "qm@example.com" "pw2" "Other" "User" "QA" (fun s => s) "u9" 5).1.users.filter
        (fun v => v.email == "qm@example.com")).length =
      (baseDB.users.filter (fun v => v.email == "qm@example.com")).length :=
  C9_amended_duplicate_email baseDB "qm@example.com" "pw2" "Other" "User" "QA"
    (fun s => s) "u9" 5 qmUser rfl

/-- C9 counterexample: the duplicate-email failure carries HTTP status 400,
not the 409 of a Conflict error; the store still holds exactly one record
for the email. -/
theorem C9_counterexample :
    (register baseDB "qm@example.com" "pw2" "Other" "User" "QA" (fun s => s) "u9" 5).2 =
      .error ⟨400, "Email already registered"⟩ ∧
    (400 : Nat) ≠ 409 ∧
    ((register baseDB "qm@example.com" "pw2" "Other" "User" "QA" (fun s => s) "u9" 5).1.users.filter
        (fun v => v.email == "qm@example.com")).length = 1 :=
  ⟨rfl, by decide, rfl⟩

/-- C5: an approve call on an in-range step by an actor whose role is
neither the step's assignee role nor Admin fails with Forbidden (HTTP 403)
and the database is unchanged. -/
theorem C5_forbidden_unchanged (db : DB) (document_id comments : String)
    (doc : Document) (step : WorkflowStep) (step_index : Int) (u : UserRec) (now : Nat)
    (hfind : db.documents.find? (fun d => d.id == document_id) = some doc)
    (hstep : pyGet? doc.approval_workflow step_index = some step)
    (h1 : step.assignee_role ≠ u.role) (h2 : u.role ≠ "Admin") :
    approve_document_step db document_id step_index comments u now =
      (db, .error ⟨403, "Not authorized for this approval step"⟩) := by
  rw [approve_found db document_id step_index comments u now doc hfind]
  unfold approveOnDoc
  rw [if_neg (by have := pyGet?_lt hstep; omega)]
  simp only [hstep]
  rw [if_pos ⟨h1, h2⟩]

/-- C5 witness: the QualityManager is refused on the Admin-owned step of
the fixture SOP document, and nothing changes. -/
theorem C5_witness :
    approve_document_step baseDB "d1" 1 "" qmUser 3 =
      (baseDB, .error ⟨403, "Not authorized for this approval step"⟩) :=
  C5_forbidden_unchanged baseDB "d1" "" sopDoc
    { step_name := "Management Approval", assignee_role := "Admin", status := "Pending" }
    1 qmUser 3 rfl rfl (by decide) (by decide)

/-- C6 (amended): an out-of-range `step_index` on an existing document
never succeeds, but the failure is not NotFound: an index at or above the
workflow length fails with BadRequest (HTTP 400, "Invalid workflow step"),
while a negative index below minus the length escapes the bounds check and
raises an unhandled `IndexError` (HTTP 500); the database is unchanged in
both cases. -/
theorem C6_amended_out_of_range (db : DB) (document_id comments : String)
    (doc : Document) (step_index : Int) (u : UserRec) (now : Nat)
    (hfind : db.documents.find? (fun d => d.id == document_id) = some doc) :
    ((doc.approval_workflow.length : Int) ≤ step_index →
      approve_document_step db document_id step_index comments u now =
        (db, .error ⟨400, "Invalid workflow step"⟩)) ∧
    (step_index < -(doc.approval_workflow.length : Int) →
      approve_document_step db document_id step_index comments u now =
        (db, .error ⟨500, "IndexError"⟩)) := by
  rw [approve_found db document_id step_index comments u now doc hfind]
  unfold approveOnDoc
  constructor
  · intro h
    rw [if_pos h]
  · intro h
    rw [if_neg (by omega : ¬ (doc.approval_workflow.length : Int) ≤ step_index)]
    have hg : pyGet? doc.approval_workflow step_index = none := by
      unfold pyGet?
      simp only [if_pos (by omega : step_index < 0)]
      rw [if_pos (by omega : step_index + (doc.approval_workflow.length : Int) < 0)]
    simp only [hg]

/-- C6 witness: on the two-step fixture workflow, index 5 yields the 400
error and index -3 the unhandled IndexError. -/
theorem C6_witness :
    approve_document_step baseDB "d1" 5 "x" qmUser 2 =
      (baseDB, .error ⟨400, "Invalid workflow step"⟩) ∧
    approve_document_step baseDB "d1" (-3) "x" qmUser 2 =
      (baseDB, .error ⟨500, "IndexError"⟩) :=
  ⟨(C6_amended_out_of_range baseDB "d1" "x" sopDoc 5 qmUser 2 rfl).1 (by decide),
   (C6_amended_out_of_range baseDB "d1" "x" sopDoc (-3) qmUser 2 rfl).2 (by decide)⟩

/-- C6 counterexample: an out-of-range approve fails with HTTP 400, which
is the BadRequest status, not the 404 that NotFound failures (such as a
missing document) carry in this code base. -/
theorem C6_counterexample :
    approve_document_step baseDB "d1" 5 "" adminUser 1 =
      (baseDB, .error ⟨400, "Invalid workflow step"⟩) ∧
    (400 : Nat) ≠ 404 ∧
    approve_document_step baseDB "missing" 0 "" adminUser 1 =
      (baseDB, .error ⟨404, "Document not found"⟩) :=
  ⟨rfl, by decide, rfl⟩

/-- C10: a negative `step_index` whose absolute value is at most the
workflow length passes the bounds check; with an authorized actor the call
succeeds and mutates the step at position `length + step_index`, i.e. the
position counted from the end of the list. -/
theorem C10_negative_index (db : DB) (document_id comments : String)
    (doc : Document) (step : WorkflowStep) (step_index : Int) (u : UserRec) (now : Nat)
    (hfind : db.documents.find? (fun d => d.id == document_id) = some doc)
    (hneg : step_index < 0)
    (hstep : pyGet? doc.approval_workflow step_index = some step)
    (hrole : step.assignee_role = u.role ∨ u.role = "Admin") :
    (∃ r, (approve_document_step db document_id step_index comments u now).2 = .ok r) ∧
    ∃ doc',
      ((approve_document_step db document_id step_index comments u now).1).documents.find?
          (fun d => d.id == document_id) = some doc' ∧
      doc'.approval_workflow =
        doc.approval_workflow.set
          (step_index + (doc.approval_workflow.length : Int)).toNat
          (completeStep step u comments now) := by
  rw [approve_found db document_id step_index comments u now doc hfind,
    approveOnDoc_success db document_id doc step_index comments u now step hstep
      (by tauto)]
  unfold approveWrite
  refine ⟨⟨_, rfl⟩, _, find?_updateFirst _ _ _ _ (fun x hx => hx) hfind, ?_⟩
  show pySet doc.approval_workflow step_index (completeStep step u comments now) = _
  exact pySet_neg_eq_set _ hneg hstep

/-- C10 witness: index -2 on the two-step fixture workflow is accepted and
completes the first step (position 0). -/
theorem C10_witness :
    (∃ r, (approve_document_step baseDB "d1" (-2) "c" qmUser 7).2 = .ok r) ∧
    ∃ doc',
      ((approve_document_step baseDB "d1" (-2) "c" qmUser 7).1).documents.find?
          (fun d => d.id == "d1") = some doc' ∧
      doc'.approval_workflow =
        sopDoc.approval_workflow.set
          ((-2 : Int) + (sopDoc.approval_workflow.length : Int)).toNat
          (completeStep
            { step_name := "Technical Review", assignee_role := "QualityManager",
              status := "Pending" }
            qmUser "c" 7) :=
  C10_negative_index baseDB "d1" "c" sopDoc
    { step_name := "Technical Review", assignee_role := "QualityManager",
      status := "Pending" }
    (-2) qmUser 7 rfl (by decide) rfl (Or.inl rfl)

/-- C1: whenever an approve call succeeds, the resulting document status is
Approved exactly when every step of the (mutated) workflow is Completed and
UnderReview otherwise — in particular it is never Draft — regardless of the
order in which steps were completed. -/
theorem C1_status_recomputation (db : DB) (document_id comments : String)
    (step_index : Int) (u : UserRec) (now : Nat) (r : String × String)
    (hok : (approve_document_step db document_id step_index comments u now).2 = .ok r) :
    r.2 ≠ "Draft" ∧
    ∃ doc',
      ((approve_document_step db document_id step_index comments u now).1).documents.find?
          (fun d => d.id == document_id) = some doc' ∧
      doc'.status = r.2 ∧
      (doc'.status = "Approved" ↔ ∀ s ∈ doc'.approval_workflow, s.status = "Completed") ∧
      (doc'.status = "Approved" ∨ doc'.status = "UnderReview") := by
  cases hfd : db.documents.find? (fun d => d.id == document_id) with
  | none =>
    rw [show approve_document_step db document_id step_index comments u now =
        (db, .error ⟨404, "Document not found"⟩) from by
      unfold approve_document_step; rw [hfd]] at hok
    simp at hok
  | some doc =>
    rw [approve_found db document_id step_index comments u now doc hfd] at hok ⊢
    by_cases hb : (doc.approval_workflow.length : Int) ≤ step_index
    · rw [show approveOnDoc db document_id doc step_index comments u now =
          (db, .error ⟨400, "Invalid workflow step"⟩) from by
        unfold approveOnDoc; rw [if_pos hb]] at hok
      simp at hok
    · cases hg : pyGet? doc.approval_workflow step_index with
      | none =>
        rw [show approveOnDoc db document_id doc step_index comments u now =
            (db, .error ⟨500, "IndexError"⟩) from by
          unfold approveOnDoc; rw [if_neg hb]; simp only [hg]] at hok
        simp at hok
      | some step =>
        by_cases hr : step.assignee_role ≠ u.role ∧ u.role ≠ "Admin"
        · rw [show approveOnDoc db document_id doc step_index comments u now =
              (db, .error ⟨403, "Not authorized for this approval step"⟩) from by
            unfold approveOnDoc; rw [if_neg hb]; simp only [hg]; rw [if_pos hr]] at hok
          simp at hok
        · rw [approveOnDoc_success db document_id doc step_index comments u now step hg hr]
            at hok ⊢
          have hr2 : r =
              (if allCompleted (pySet doc.approval_workflow step_index
                  (completeStep step u comments now)) then "Document approved"
                else "Document step approved",
               newStatus (pySet doc.approval_workflow step_index
                 (completeStep step u comments now))) :=
            (Except.ok.inj hok).symm
          subst hr2
          refine ⟨?_, _, find?_updateFirst _ _ _ _ (fun x hx => hx) hfd, rfl, ?_, ?_⟩
          · show newStatus _ ≠ "Draft"
            unfold newStatus
            split <;> decide
          · show newStatus (pySet doc.approval_workflow step_index
                (completeStep step u comments now)) = "Approved" ↔
              ∀ s ∈ pySet doc.approval_workflow step_index
                (completeStep step u comments now), s.status = "Completed"
            unfold newStatus
            by_cases hc : allCompleted (pySet doc.approval_workflow step_index
              (completeStep step u comments now)) = true
            · rw [if_pos hc]
              unfold allCompleted at hc
              constructor
              · intro _ s hs
                simpa using List.all_eq_true.mp hc s hs
              · intro _; rfl
            · rw [if_neg hc]
              constructor
              · intro h
                exact absurd h (by decide)
              · intro hall
                exact absurd (by
                  unfold allCompleted
                  exact List.all_eq_true.mpr fun s hs => by simpa using hall s hs) hc
          · show newStatus _ = "Approved" ∨ newStatus _ = "UnderReview"
            unfold newStatus
            split
            · exact Or.inl rfl
            · exact Or.inr rfl

/-- C1 witness: approving step 0 of the two-step fixture workflow succeeds
and leaves the document UnderReview, with the recomputed status agreeing
with the all-steps-Completed test. -/
theorem C1_witness :
    ("Document step approved", "UnderReview").2 ≠ "Draft" ∧
    ∃ doc',
      ((approve_document_step baseDB "d1" 0 "" qmUser 1).1).documents.find?
          (fun d => d.id == "d1") = some doc' ∧
      doc'.status = ("Document step approved", "UnderReview").2 ∧
      (doc'.status = "Approved" ↔ ∀ s ∈ doc'.approval_workflow, s.status = "Completed") ∧
      (doc'.status = "Approved" ∨ doc'.status = "UnderReview") :=
  C1_status_recomputation baseDB "d1" "" 0 qmUser 1
    ("Document step approved", "UnderReview") rfl

/-- C2: a successful upload appends exactly one document whose workflow is
the pure function `seedWorkflow` of the document type: CTD, eCTD and
Regulatory get the 3-step [QualityManager, RegulatoryAffairs, Admin]
sequence, SOP and Protocol the 2-step [QualityManager, Admin] sequence, and
every other type the empty list. -/
theorem C2_seeded_workflow (db : DB) (u : UserRec) (file_size : Nat)
    (file_name title description document_type category tags newId : String)
    (now : Nat) (r : String)
    (hok : (upload_document db u file_size file_name title description document_type
        category tags newId now).2 = .ok r) :
    ∃ doc,
      (upload_document db u file_size file_name title description document_type
          category tags newId now).1.documents = db.documents ++ [doc] ∧
      doc.approval_workflow = seedWorkflow document_type ∧
      ((document_type = "CTD" ∨ document_type = "eCTD" ∨ document_type = "Regulatory") →
        doc.approval_workflow.length = 3 ∧
        doc.approval_workflow.map (fun s => s.assignee_role) =
          ["QualityManager", "RegulatoryAffairs", "Admin"]) ∧
      ((document_type = "SOP" ∨ document_type = "Protocol") →
        doc.approval_workflow.length = 2 ∧
        doc.approval_workflow.map (fun s => s.assignee_role) =
          ["QualityManager", "Admin"]) ∧
      (¬(document_type = "CTD" ∨ document_type = "eCTD" ∨ document_type = "Regulatory") →
        ¬(document_type = "SOP" ∨ document_type = "Protocol") →
        doc.approval_workflow = []) := by
  unfold upload_document at hok ⊢
  by_cases hsz : 50 * 1024 * 1024 < file_size
  · rw [if_pos hsz] at hok
    simp at hok
  · rw [if_neg hsz]
    refine ⟨_, rfl, rfl, ?_, ?_, ?_⟩
    · intro h
      rcases h with h | h | h <;> subst h <;> exact ⟨rfl, rfl⟩
    · intro h
      rcases h with h | h <;> subst h <;> exact ⟨rfl, rfl⟩
    · intro hA hB
      show seedWorkflow document_type = []
      unfold seedWorkflow
      rw [if_neg hA, if_neg hB]

/-- C2 witness: uploading a SOP document appends one document seeded with
the two-step [QualityManager, Admin] workflow. -/
theorem C2_witness :
    ∃ doc,
      (upload_document baseDB qmUser 10 "f.txt" "T" "D" "SOP"
          "General" "a,b" "d9" 1).1.documents = baseDB.documents ++ [doc] ∧
      doc.approval_workflow = seedWorkflow "SOP" ∧
      (("SOP" : String) = "CTD" ∨ ("SOP" : String) = "eCTD" ∨ ("SOP" : String) = "Regulatory" →
        doc.approval_workflow.length = 3 ∧
        doc.approval_workflow.map (fun s => s.assignee_role) =
          ["QualityManager", "RegulatoryAffairs", "Admin"]) ∧
      (("SOP" : String) = "SOP" ∨ ("SOP" : String) = "Protocol" →
        doc.approval_workflow.length = 2 ∧
        doc.approval_workflow.map (fun s => s.assignee_role) =
          ["QualityManager", "Admin"]) ∧
      (¬(("SOP" : String) = "CTD" ∨ ("SOP" : String) = "eCTD" ∨ ("SOP" : String) = "Regulatory") →
        ¬(("SOP" : String) = "SOP" ∨ ("SOP" : String) = "Protocol") →
        doc.approval_workflow = []) :=
  C2_seeded_workflow baseDB qmUser 10 "f.txt" "T" "D" "SOP" "General" "a,b" "d9" 1
    "d9" rfl

/-- C4: a sign call with a password the stored credential check rejects
fails with Unauthorized (HTTP 401) and leaves the database unchanged; a
successful sign call appends exactly one signature to the document and
changes neither its status nor its workflow step list. -/
theorem C4_sign_append_only (db : DB) (document_id reason password : String)
    (u user : UserRec) (checkpw : String → String → Bool)
    (hashHex : String → String) (now : Nat)
    (huser : db.users.find? (fun v => v.id == u.id) = some user) :
    (checkpw password user.password = false →
      sign_document db document_id reason password u checkpw hashHex now =
        (db, .error ⟨401, "Invalid password for signature"⟩)) ∧
    (∀ r, (sign_document db document_id reason password u checkpw hashHex now).2 = .ok r →
      ∃ doc doc' sig,
        db.documents.find? (fun d => d.id == document_id) = some doc ∧
        ((sign_document db document_id reason password u checkpw hashHex now).1).documents.find?
            (fun d => d.id == document_id) = some doc' ∧
        doc'.signatures = doc.signatures ++ [sig] ∧
        doc'.status = doc.status ∧
        doc'.approval_workflow = doc.approval_workflow) := by
  constructor
  · intro hpw
    unfold sign_document
    simp only [huser]
    rw [if_pos hpw]
  · intro r hr
    unfold sign_document at hr ⊢
    simp only [huser] at hr ⊢
    by_cases hpw : checkpw password user.password = false
    · rw [if_pos hpw] at hr
      simp at hr
    · rw [if_neg hpw] at hr ⊢
      cases hdoc : db.documents.find? (fun d => d.id == document_id) with
      | none =>
        rw [hdoc] at hr
        simp at hr
      | some doc =>
        simp only [hdoc]
        exact ⟨doc, _, _, rfl, find?_updateFirst _ _ _ _ (fun x hx => hx) hdoc,
          rfl, rfl, rfl⟩

/-- C4 witness: with an equality password check, the wrong password is
rejected with 401 on the unchanged store, and the right password appends
exactly one signature to the fixture document. -/
theorem C4_witness :
    sign_document baseDB "d1" "QA" "wrong" qmUser (fun p h => p == h) (fun s => s) 9 =
      (baseDB, .error ⟨401, "Invalid password for signature"⟩) ∧
    ∃ doc doc' sig,
      baseDB.documents.find? (fun d => d.id == "d1") = some doc ∧
      ((sign_document baseDB "d1" "QA" "hash1" qmUser (fun p h => p == h)
          (fun s => s) 9).1).documents.find? (fun d => d.id == "d1") = some doc' ∧
      doc'.signatures = doc.signatures ++ [sig] ∧
      doc'.status = doc.status ∧
      doc'.approval_workflow = doc.approval_workflow :=
  ⟨(C4_sign_append_only baseDB "d1" "QA" "wrong" qmUser qmUser (fun p h => p == h)
      (fun s => s) 9 rfl).1 rfl,
   (C4_sign_append_only baseDB "d1" "QA" "hash1" qmUser qmUser (fun p h => p == h)
      (fun s => s) 9 rfl).2 ("u1" ++ "d1" ++ "QA" ++ toString 9) rfl⟩

/-- On a pattern with no wildcard, anchored regex matching is the
case-insensitive leading-block comparison. -/
theorem matchHere_literal (qs : List Char) (hq : ∀ c ∈ qs, c ≠ '.') :
    ∀ cs : List Char, matchHere (parseP qs) cs =
      startsWithChars (qs.map Char.toLower) (cs.map Char.toLower) := by
  induction qs with
  | nil => intro cs; rfl
  | cons q qs ih =>
    intro cs
    have hq1 : q ≠ '.' := hq q (by simp)
    have hq' : ∀ c ∈ qs, c ≠ '.' := fun c hc => hq c (by simp [hc])
    cases cs with
    | nil => simp only [parseP, if_neg hq1, List.map]; rfl
    | cons c cs' =>
      simp only [parseP, if_neg hq1, List.map, matchHere, startsWithChars, rtokMatches]
      rw [ih hq' cs']

/-- On a pattern with no wildcard, unanchored regex search is
case-insensitive substring containment. -/
theorem regexFindIn_literal (qs : List Char) (hq : ∀ c ∈ qs, c ≠ '.') :
    ∀ cs : List Char, regexFindIn (parseP qs) cs =
      containsChars (qs.map Char.toLower) (cs.map Char.toLower) := by
  intro cs
  induction cs with
  | nil =>
    show matchHere (parseP qs) [] = startsWithChars (qs.map Char.toLower) []
    simpa using matchHere_literal qs hq []
  | cons c cs' ih =>
    simp only [regexFindIn, List.map, containsChars]
    rw [matchHere_literal qs hq (c :: cs'), ih]
    simp [List.map]

/-- For a query with no wildcard, the search engine's regex test coincides
with case-insensitive substring containment. -/
theorem mongoRegexFind_eq_containsCI (q s : String) (hq : ∀ c ∈ q.data, c ≠ '.') :
    mongoRegexFind q s = containsCI q s := by
  unfold mongoRegexFind containsCI lowerList
  exact regexFindIn_literal q.data hq s.data

/-- C7 (amended): for a query within the modelled regex fragment, search
returns at most 20 results, and only documents whose title, description or
some tag matches the query as a case-insensitive regular expression; when
the query additionally contains no `.` wildcard this is exactly
case-insensitive substring containment, as the original claim states. -/
theorem C7_search_regex (q : String) (docType : Option String) (db : DB)
    (hq : ∀ c ∈ q.data, c ∉ regexMetachars) :
    (search_documents db q docType).length ≤ 20 ∧
    (∀ d ∈ search_documents db q docType,
      mongoRegexFind q d.title = true ∨
      (∃ s, d.description = some s ∧ mongoRegexFind q s = true) ∨
      (∃ t ∈ d.tags, mongoRegexFind q t = true)) ∧
    ((∀ c ∈ q.data, c ≠ '.') →
      ∀ d ∈ search_documents db q docType,
        containsCI q d.title = true ∨
        (∃ s, d.description = some s ∧ containsCI q s = true) ∨
        (∃ t ∈ d.tags, containsCI q t = true)) := by
  have main : ∀ d ∈ search_documents db q docType,
      mongoRegexFind q d.title = true ∨
      (∃ s, d.description = some s ∧ mongoRegexFind q s = true) ∨
      (∃ t ∈ d.tags, mongoRegexFind q t = true) := by
    intro d hd
    have hmem : d ∈ db.documents.filter (docMatches q docType) :=
      List.take_subset _ _ hd
    have hmatch : docMatches q docType d = true := (List.mem_filter.mp hmem).2
    unfold docMatches at hmatch
    rw [Bool.and_eq_true] at hmatch
    rcases hmatch with ⟨hor, -⟩
    rw [Bool.or_eq_true, Bool.or_eq_true] at hor
    rcases hor with (h | h) | h
    · exact Or.inl h
    · cases hdesc : d.description with
      | none => rw [hdesc] at h; simp [optFieldMatch] at h
      | some s =>
        rw [hdesc] at h
        exact Or.inr (Or.inl ⟨s, rfl, by simpa [optFieldMatch] using h⟩)
    · rcases List.any_eq_true.mp h with ⟨t, ht, hmt⟩
      exact Or.inr (Or.inr ⟨t, ht, hmt⟩)
  refine ⟨?_, main, ?_⟩
  · show ((db.documents.filter (docMatches q docType)).take 20).length ≤ 20
    simp [List.length_take]
  · intro hdot d hd
    rcases main d hd with h | ⟨s, hs, h⟩ | ⟨t, ht, h⟩
    · exact Or.inl (by rw [← mongoRegexFind_eq_containsCI q _ hdot]; exact h)
    · exact Or.inr (Or.inl ⟨s, hs, by rw [← mongoRegexFind_eq_containsCI q _ hdot]; exact h⟩)
    · exact Or.inr (Or.inr ⟨t, ht, by rw [← mongoRegexFind_eq_containsCI q _ hdot]; exact h⟩)

/-- C7 witness: the query "quality" is metacharacter-free, so the search on
the fixture store returns at most 20 results, all matching by regex and
equivalently by case-insensitive substring. -/
theorem C7_witness :
    (search_documents baseDB "quality" none).length ≤ 20 ∧
    (∀ d ∈ search_documents baseDB "quality" none,
      mongoRegexFind "quality" d.title = true ∨
      (∃ s, d.description = some s ∧ mongoRegexFind "quality" s = true) ∨
      (∃ t ∈ d.tags, mongoRegexFind "quality" t = true)) ∧
    ((∀ c ∈ "quality".data, c ≠ '.') →
      ∀ d ∈ search_documents baseDB "quality" none,
        containsCI "quality" d.title = true ∨
        (∃ s, d.description = some s ∧ containsCI "quality" s = true) ∨
        (∃ t ∈ d.tags, containsCI "quality" t = true)) :=
  C7_search_regex "quality" none baseDB (by decide)

/-- C7 counterexample: the query "." (a regex wildcard) makes search return
a document none of whose fields contain "." as a substring: matching is
regex matching, not substring matching. -/
theorem C7_counterexample :
    search_documents dotDB "." none = [dotDoc] ∧
    containsCI "." dotDoc.title = false ∧
    dotDoc.description = some "" ∧
    containsCI "." "" = false ∧
    dotDoc.tags = ([] : List String) :=
  ⟨rfl, rfl, rfl, rfl, rfl⟩
